import Mathlib

/-!
Verification of the natural-language specification of SimpleCDRipper
(src/SimpleCDRipperGUI.py) against a shallow Lean embedding of its
non-GUI logic: the TOC parser and fingerprint builder of
`LookupWorker.run`, the lookup-response handling of `LookupWorker.run`
and `App.lookup_finished`, and the rip pipeline of `App.start_rip`,
`RipWorker.run`, `RipWorker.get_encoder_cmd` and
`RipWorker.sanitize_filename`.

Python strings are modelled as Lean `String`s; the string primitives the
code uses (`str.strip`, `str.split`, `str.join`, `str.lower`,
`str.rstrip`, `int(...)`, f-string decimal formatting, `os.path.join`)
are embedded as executable functions over `List Char` below.  Python's
whitespace class is approximated by `Char.isWhitespace` (space, tab, CR,
LF), `str.isalnum`/`str.lower` by their ASCII behaviour, and `int(...)`
by an optional sign followed by decimal digits; the unicode-only and
underscore-separator corners of CPython's behaviour are not reachable
from the claims checked here.
-/

deriving instance DecidableEq for Except

/-- Whitespace test used by the embeddings of `str.strip` / `str.split`. -/
def pySpace (c : Char) : Bool := c.isWhitespace

/-- Embedding of Python `str.strip()` on the character list of a string. -/
def pyStripD (l : List Char) : List Char :=
  ((l.dropWhile pySpace).reverse.dropWhile pySpace).reverse

/-- Embedding of Python `str.rstrip()` on the character list of a string. -/
def pyRstripD (l : List Char) : List Char :=
  (l.reverse.dropWhile pySpace).reverse

/-- Accumulator-based worker for the embedding of `str.split()`:
splits on runs of whitespace and drops empty fields. -/
def splitWsAux : List Char → List Char → List (List Char)
  | [], acc => if acc = [] then [] else [acc.reverse]
  | c :: cs, acc =>
    if pySpace c then
      (if acc = [] then splitWsAux cs [] else acc.reverse :: splitWsAux cs [])
    else splitWsAux cs (c :: acc)

/-- Embedding of Python `str.split()` (no separator argument). -/
def pySplitD (l : List Char) : List (List Char) := splitWsAux l []

/-- String-level wrapper around `pySplitD`. -/
def pySplit (s : String) : List String := (pySplitD s.data).map String.mk

/-- Decimal value of a digit-character list (used by the `int(...)` model). -/
def digitsVal (l : List Char) : Nat :=
  l.foldl (fun a c => a * 10 + (c.toNat - 48)) 0

/-- Nonempty all-digit test, the domain of Python `int(...)` after the sign. -/
def isDigits (l : List Char) : Bool := !l.isEmpty && l.all Char.isDigit

/-- Unsigned part of the `int(...)` model. -/
def pyNat? (l : List Char) : Option Nat :=
  if isDigits l then some (digitsVal l) else none

/-- Embedding of Python `int(s)`: optional sign, then decimal digits;
`none` models the `ValueError` raised on anything else. -/
def pyInt? (s : String) : Option Int :=
  match s.data with
  | '-' :: rest => (pyNat? rest).map (fun n => -(n : Int))
  | '+' :: rest => (pyNat? rest).map (fun n => (n : Int))
  | l => (pyNat? l).map (fun n => (n : Int))

/-- Embedding of Python `sep.join(parts)` on character lists. -/
def pyJoinD (sep : List Char) : List (List Char) → List Char
  | [] => []
  | [x] => x
  | x :: y :: xs => x ++ sep ++ pyJoinD sep (y :: xs)

/-- String-level wrapper around `pyJoinD`. -/
def pyJoinS (sep : String) (l : List String) : String :=
  ⟨pyJoinD sep.data (l.map String.data)⟩

/-- Digit character of a value below ten (decimal formatting helper). -/
def digitChar : Nat → Char
  | 0 => '0' | 1 => '1' | 2 => '2' | 3 => '3' | 4 => '4'
  | 5 => '5' | 6 => '6' | 7 => '7' | 8 => '8' | _ => '9'

/-- Fuel-indexed decimal rendering of a natural number (most significant
digit first); with fuel above the value it renders every digit. -/
def natDigits : Nat → Nat → List Char
  | 0, _ => []
  | fuel + 1, n =>
    if n < 10 then [digitChar n]
    else natDigits fuel (n / 10) ++ [digitChar (n % 10)]

/-- Decimal rendering of a natural number, as Python `str`/f-strings print it. -/
def natRepr (n : Nat) : List Char := natDigits (n + 1) n

/-- Decimal rendering of an integer, as Python `str`/f-strings print it. -/
def intRepr : Int → List Char
  | .ofNat m => natRepr m
  | .negSucc m => '-' :: natRepr (m + 1)

-- ---------------------------------------------------------------------------
-- TOC parser and fingerprint builder (LookupWorker.run, lines 408-427)
-- ---------------------------------------------------------------------------

/-- Errors of the TOC-parsing part of `LookupWorker.run`: `NoAudioTracks`
models the explicit `self.error.emit("No audio tracks found.")`, and
`PyException` models an `IndexError`/`ValueError` escaping to the
worker's generic `except` clause. -/
inductive LookupError where
  | NoAudioTracks
  | PyException
deriving DecidableEq

/-- The parsed table of contents: `track_count = len(track_lines)`, the
`offsets` list of raw 4th fields (strings, exactly as the code keeps
them), and the computed `leadout`. -/
structure TOC where
  track_count : Nat
  offsets : List String
  leadout : Int
deriving DecidableEq

/-- Embedding of the track-line filter
`l.strip() and l.strip().split()[0].endswith('.')` (line 408). -/
def isTrackLine (l : String) : Bool :=
  !(pyStripD l.data).isEmpty &&
    ((pySplitD (pyStripD l.data)).headD []).getLast? == some '.'

/-- Embedding of the TOTAL-line test `line.strip().startswith("TOTAL")`
(line 421). -/
def isTotalLine (l : String) : Bool :=
  "TOTAL".data.isPrefixOf (pyStripD l.data)

/-- Embedding of the comprehension `[line.split()[3] for line in
track_lines]` (line 415); `none` models the `IndexError` raised when a
track line has fewer than four fields. -/
def offsetsOf : List String → Option (List String)
  | [] => some []
  | l :: rest =>
    match (pySplit l)[3]? with
    | none => none
    | some f =>
      match offsetsOf rest with
      | none => none
      | some fs => some (f :: fs)

/-- Embedding of the TOTAL-scanning loop (lines 419-423): the first line
whose stripped text starts with `TOTAL` contributes `int(line.split()[1])`;
when no such line exists the initial value `0` survives. -/
def totalSectors (lines : List String) : Except LookupError Int :=
  match lines.find? isTotalLine with
  | none => .ok 0
  | some l =>
    match ((pySplit l)[1]?).bind pyInt? with
    | none => .error .PyException
    | some n => .ok n

/-- Embedding of the TOC-parsing part of `LookupWorker.run` (lines
408-425), acting on `proc.stderr.splitlines()`. -/
def parseTOC (lines : List String) : Except LookupError TOC :=
  if (lines.filter isTrackLine).length = 0 then .error .NoAudioTracks
  else
    match offsetsOf (lines.filter isTrackLine) with
    | none => .error .PyException
    | some offsets =>
      match ((pySplit ((lines.filter isTrackLine).headD ""))[3]?).bind pyInt? with
      | none => .error .PyException
      | some first_track_sector =>
        match totalSectors lines with
        | .error e => .error e
        | .ok total_sectors =>
          .ok ⟨(lines.filter isTrackLine).length, offsets,
            first_track_sector + total_sectors⟩

/-- Character list of the fingerprint
`f"1+{track_count}+{leadout}+{'+'.join(offsets)}"` (line 427). -/
def tocStringD (t : TOC) : List Char :=
  '1' :: '+' :: natRepr t.track_count ++
    '+' :: intRepr t.leadout ++
    '+' :: pyJoinD ['+'] (t.offsets.map String.data)

/-- The fingerprint string built by `LookupWorker.run` (line 427). -/
def tocString (t : TOC) : String := ⟨tocStringD t⟩

-- ---------------------------------------------------------------------------
-- Metadata lookup handling (LookupWorker.run lines 443-449,
-- App.lookup_finished lines 170-201)
-- ---------------------------------------------------------------------------

/-- A release entry of the service response; only its identity matters
for the claims checked here. -/
structure Release where
  artist : String
  title : String
deriving DecidableEq

/-- The JSON body of a well-formed lookup response, as the code reads it:
an optional `releases` array (`none` models the key being absent) and
the presence of a `cdstub` key. -/
structure MBResponse where
  releases? : Option (List Release)
  cdstub : Bool
deriving DecidableEq

/-- Outcome of the lookup flow as surfaced to the user: an error emitted
by the worker, an error raised by `App.lookup_finished` via
`handle_error`, or a usable candidate list. -/
inductive LookupOutcome where
  | workerError (msg : String)
  | appError (msg : String)
  | candidates (rs : List Release)
deriving DecidableEq

/-- Embedding of lines 446-449 of `LookupWorker.run`:
`if ('releases' in data and data['releases']) or 'cdstub' in data:
finished.emit(data) else: error.emit(...)`. -/
def workerHandle (m : MBResponse) : Except String MBResponse :=
  if (m.releases?.isSome ∧ m.releases?.getD [] ≠ []) ∨ m.cdstub then .ok m
  else .error "No releases found for this disc."

/-- Embedding of `App.lookup_finished` (lines 170-201) up to release
selection.  The Python guard is `not metadata or (('releases' not in
metadata or not metadata['releases']) and 'cdstub' not in metadata)`;
the `not metadata` disjunct (an empty JSON object) is subsumed by the
second disjunct for our response model, which has no further keys. -/
def lookup_finished (m : MBResponse) : LookupOutcome :=
  if (m.releases?.isNone ∨ m.releases?.getD [] = []) ∧ m.cdstub = false then
    .appError "Could not find metadata for this disc."
  else if m.releases?.getD [] = [] then
    .appError "Found a CDStub, but no official release. Please add to MusicBrainz or enter manually."
  else
    .candidates (m.releases?.getD [])

/-- The composed lookup flow: the worker either emits `error` (shown via
`handle_error`) or emits `finished(data)`, which is consumed by
`App.lookup_finished`. -/
def lookupFlow (m : MBResponse) : LookupOutcome :=
  match workerHandle m with
  | .error e => .workerError e
  | .ok d => lookup_finished d

-- ---------------------------------------------------------------------------
-- Rip pipeline (App.start_rip lines 240-274, RipWorker lines 458-573)
-- ---------------------------------------------------------------------------

/-- ASCII embedding of Python `str.lower()` on one character. -/
def lowerChar (c : Char) : Char :=
  if 'A' ≤ c ∧ c ≤ 'Z' then Char.ofNat (c.toNat + 32) else c

/-- Embedding of Python `str.lower()`. -/
def strLower (s : String) : String := ⟨s.data.map lowerChar⟩

/-- The character filter of `RipWorker.sanitize_filename`:
`c.isalnum() or c in (' ', '.', '_')` (ASCII behaviour). -/
def keepChar (c : Char) : Bool :=
  c.isAlphanum || c == ' ' || c == '.' || c == '_'

/-- Embedding of `RipWorker.sanitize_filename` (lines 572-573):
keep alphanumerics, space, dot and underscore, then `rstrip()`. -/
def sanitize (name : String) : String :=
  ⟨pyRstripD (name.data.filter keepChar)⟩

/-- Embedding of POSIX `os.path.join(a, b)`: an absolute second
component replaces the first; otherwise a separator is added unless one
is already there. -/
def osJoin (a b : String) : String :=
  if b.data.head? = some '/' then b
  else if a.data = [] then b
  else if a.data.getLast? = some '/' then ⟨a.data ++ b.data⟩
  else ⟨a.data ++ '/' :: b.data⟩

/-- Embedding of the f-string format `f"{track_num:02d}"`: decimal
rendering left-padded with `0` to a minimum width of two. -/
def intPad2 : Int → List Char
  | .ofNat m => if m < 10 then '0' :: natRepr m else natRepr m
  | .negSucc m => '-' :: natRepr (m + 1)

/-- One row of the GUI track table: both fields are strings, exactly as
`rip_config["tracks"]` stores them. -/
structure Track where
  number : String
  title : String
deriving DecidableEq

instance : Inhabited Track := ⟨⟨"", ""⟩⟩

/-- The `rip_config` dict assembled by `App.start_rip` (lines 241-252).
`cover_art` records whether a non-null pixmap is present. -/
structure RipConfig where
  device : String
  format : String
  save_path : String
  artist : String
  album : String
  year : String
  disc_num : String
  disc_total : String
  tracks : List Track
  cover_art : Bool
deriving DecidableEq

/-- Exit code and captured diagnostic output of one external process. -/
structure ProcResult where
  exitCode : Int
  stderr : String
deriving DecidableEq

/-- The environment's behaviour for one track: the result of the
extraction process (`cdparanoia`) and of the encoder process.  The code
consults `rip` only on the WAV path and `enc` only on the compressed
path. -/
structure TrackEnv where
  rip : ProcResult
  enc : ProcResult
deriving DecidableEq

/-- Observable trace events of a rip job, in emission order.  `mkdir`,
`savedCover`, `ranWav` and `ranPipe` record the job's filesystem and
process actions; the rest mirror the Qt signals.  The percent argument
of `album_progress.emit(int((i + 1) / total_tracks * 100))` is computed
in IEEE-754 double arithmetic, which this embedding does not model, so
`progress` carries the raw pair (completed tracks, total tracks)
instead. -/
inductive RipEvent where
  | status (msg : String)
  | log (msg : String)
  | mkdir (path : String) (existOk : Bool)
  | savedCover (path : String)
  | ranWav (cmd : List String)
  | ranPipe (ripCmd encCmd : List String)
  | progress (completed total : Nat)
  | err (msg : String)
  | finished
deriving DecidableEq

/-- Embedding of `RipWorker.get_encoder_cmd` (lines 533-570). -/
def get_encoder_cmd (cfg : RipConfig) (track : Track)
    (cover_art_path output_filename : String) : List String :=
  let track_num := track.number
  if cfg.format = "FLAC" then
    let cmd := ["flac", "-s", "--best", "--verify",
                "-T", "ARTIST=" ++ cfg.artist,
                "-T", "ALBUM=" ++ cfg.album,
                "-T", "TITLE=" ++ track.title,
                "-T", "TRACKNUMBER=" ++ track_num,
                "-T", "DATE=" ++ cfg.year,
                "-", "-o", output_filename]
    let cmd := if cfg.disc_num ≠ "" then
      cmd.take 3 ++ ("-T DISCNUMBER=" ++ cfg.disc_num) :: cmd.drop 3 else cmd
    let cmd := if cfg.disc_total ≠ "" then
      cmd.take 3 ++ ("-T TOTALDISCS=" ++ cfg.disc_total) :: cmd.drop 3 else cmd
    let cmd := if cover_art_path ≠ "" then
      cmd.take 3 ++ ("--picture=" ++ cover_art_path) :: cmd.drop 3 else cmd
    cmd
  else if cfg.format = "MP3" then
    let cmd := ["lame", "-S", "-b", "320", "--add-id3v2",
                "--tt", track.title, "--ta", cfg.artist, "--tl", cfg.album,
                "--ty", cfg.year, "--tn", track_num]
    let cmd := if cfg.disc_num ≠ "" ∧ cfg.disc_total ≠ "" then
      cmd ++ ["--tv", "TPOS=" ++ cfg.disc_num ++ "/" ++ cfg.disc_total] else cmd
    cmd ++ ["-", output_filename]
  else if cfg.format = "OGG" then
    let cmd := ["oggenc", "-Q", "-q", "10",
                "-a", cfg.artist, "-l", cfg.album, "-t", track.title,
                "-N", track_num, "-d", cfg.year]
    let cmd := if cfg.disc_num ≠ "" then
      cmd ++ ["-c", "DISCNUMBER=" ++ cfg.disc_num] else cmd
    let cmd := if cfg.disc_total ≠ "" then
      cmd ++ ["-c", "TOTALDISCS=" ++ cfg.disc_total] else cmd
    cmd ++ ["-o", output_filename, "-"]
  else []

/-- The output directory derived in `RipWorker.run` (lines 472-481):
`save_path/sanitize(artist)/sanitize(album)` plus a `Disc <n>`
subdirectory when `disc_num` is a nonempty string. -/
def outputDir (cfg : RipConfig) : String :=
  let base := osJoin (osJoin cfg.save_path (sanitize cfg.artist)) (sanitize cfg.album)
  if cfg.disc_num ≠ "" then osJoin base ("Disc " ++ cfg.disc_num) else base

/-- The per-track output filename of `RipWorker.run` (lines 494-497):
`f"{track_num:02d}. {sanitize(title)}.{format.lower()}"` joined onto the
output directory. -/
def output_filename (outPath : String) (fmt : String) (n : Int) (title : String) :
    String :=
  osJoin outPath (⟨intPad2 n⟩ ++ ". " ++ sanitize title ++ "." ++ strLower fmt)

/-- Embedding of the per-track loop of `RipWorker.run` (lines 490-526).
The first argument of the recursion is the enumeration index `i`; the
environment `env` supplies the external process results by index.  A
track number `int(...)` failure models the ValueError escaping to the
worker's generic `except` clause (its message is abstracted). -/
def ripTracks (cfg : RipConfig) (env : Nat → TrackEnv)
    (outPath coverPath : String) (total : Nat) :
    Nat → List Track → List RipEvent
  | _, [] => [.finished]
  | i, tr :: rest =>
    match pyInt? tr.number with
    | none => [.err ("invalid track number: " ++ tr.number)]
    | some n =>
      let outFile := output_filename outPath cfg.format n tr.title
      RipEvent.status ("Ripping Track " ++ ⟨intRepr n⟩ ++ "/" ++ ⟨natRepr total⟩ ++
        ": '" ++ tr.title ++ "'") ::
      if cfg.format = "WAV" then
        let cmd := ["cdparanoia", "-q", "-d", cfg.device, ⟨intRepr n⟩, outFile]
        RipEvent.log ("Ripping directly to WAV: " ++ pyJoinS " " cmd) ::
        RipEvent.ranWav cmd ::
        if (env i).rip.exitCode ≠ 0 then
          [.err ("cdparanoia failed for track " ++ ⟨intRepr n⟩ ++ ": " ++
            (env i).rip.stderr)]
        else
          RipEvent.progress (i + 1) total ::
            ripTracks cfg env outPath coverPath total (i + 1) rest
      else
        let ripCmd := ["cdparanoia", "-q", "-d", cfg.device, ⟨intRepr n⟩, "-"]
        let encCmd := get_encoder_cmd cfg tr coverPath outFile
        RipEvent.log ("Ripping: " ++ pyJoinS " " ripCmd) ::
        RipEvent.log ("Encoding: " ++ pyJoinS " " encCmd) ::
        RipEvent.ranPipe ripCmd encCmd ::
        if (env i).enc.exitCode ≠ 0 then
          [.err ("Encoder failed for track " ++ ⟨intRepr n⟩ ++ ": " ++
            (env i).enc.stderr)]
        else
          RipEvent.progress (i + 1) total ::
            ripTracks cfg env outPath coverPath total (i + 1) rest

/-- Embedding of `RipWorker.run` (lines 469-528): directory creation
(`os.makedirs(..., exist_ok=True)`), optional cover-art save, then the
per-track loop. -/
def ripRun (cfg : RipConfig) (env : Nat → TrackEnv) : List RipEvent :=
  let outPath := outputDir cfg
  let coverPath := if cfg.cover_art then osJoin outPath "cover.jpg" else ""
  RipEvent.mkdir outPath true ::
    ((if cfg.cover_art then [RipEvent.savedCover coverPath] else []) ++
      ripTracks cfg env outPath coverPath cfg.tracks.length 0 cfg.tracks)

/-- Embedding of the validation in `App.start_rip` (lines 260-262)
followed by the worker: Python `not all([artist, album, tracks])` fails
on an empty artist, empty album, or empty track list, and nothing else
runs. -/
def start_rip (cfg : RipConfig) (env : Nat → TrackEnv) : List RipEvent :=
  if cfg.artist = "" ∨ cfg.album = "" ∨ cfg.tracks = [] then
    [.err "Artist, Album, and Track information cannot be empty."]
  else ripRun cfg env

/-- Filesystem-affecting trace events (directory creation, cover save). -/
def RipEvent.isFs : RipEvent → Bool
  | .mkdir _ _ => true
  | .savedCover _ => true
  | _ => false

/-- Process-launch trace events. -/
def RipEvent.isLaunch : RipEvent → Bool
  | .ranWav _ => true
  | .ranPipe _ _ => true
  | _ => false

/-- Progress-report trace events. -/
def RipEvent.isProg : RipEvent → Bool
  | .progress _ _ => true
  | _ => false

/-- Error trace events. -/
def RipEvent.isErr : RipEvent → Bool
  | .err _ => true
  | _ => false

-- ---------------------------------------------------------------------------
-- Structural validity of a TOC (the spec's DiscTOC shape, weakened to the
-- two facts the fingerprint theorems need)
-- ---------------------------------------------------------------------------

/-- Structural validity of a TOC as the spec's data model demands it, in
the weak form used below: every offset is the decimal rendering of a
non-negative integer, and the leadout sector is non-negative.  Both
facts follow from the spec's `DiscTOC` invariant (offsets and leadout
are non-negative integers). -/
def TOC.wf (t : TOC) : Prop :=
  (∀ o ∈ t.offsets, isDigits o.data = true) ∧ 0 ≤ t.leadout

instance (t : TOC) : Decidable t.wf := by
  unfold TOC.wf; infer_instance

/-- Comparison predicate for claim C6, following the spec's words rather
than the code: a track line's first whitespace-delimited token is a
numeric label ending in the fixed punctuation marker `.` (e.g. `1.`). -/
def specIsTrackLine (l : String) : Bool :=
  match pySplitD (pyStripD l.data) with
  | [] => false
  | tok :: _ => tok.getLast? == some '.' && isDigits tok.dropLast

/-- Concrete three-track FLAC job used to witness the abort behaviour. -/
def c4cfg : RipConfig :=
  ⟨"/dev/sr0", "FLAC", "/m", "A", "B", "", "", "",
    [⟨"1", "a"⟩, ⟨"2", "b"⟩, ⟨"3", "c"⟩], false⟩

/-- Environment for `c4cfg`: the encoder fails on the second track. -/
def c4env : Nat → TrackEnv := fun i =>
  if i = 1 then ⟨⟨0, ""⟩, ⟨1, "enc boom"⟩⟩ else ⟨⟨0, ""⟩, ⟨0, ""⟩⟩


-- ---------------------------------------------------------------------------
-- Decimal rendering lemmas
-- ---------------------------------------------------------------------------

lemma digitChar_isDigit : ∀ n < 10, (digitChar n).isDigit = true := by decide

lemma digitChar_val : ∀ n < 10, (digitChar n).toNat - 48 = n := by decide

lemma natDigits_digits : ∀ fuel n, ∀ c ∈ natDigits fuel n, c.isDigit = true := by
  intro fuel
  induction fuel with
  | zero => intro n c hc; simp [natDigits] at hc
  | succ f ih =>
    intro n c hc
    by_cases h : n < 10
    · simp [natDigits, h] at hc
      subst hc
      exact digitChar_isDigit n h
    · simp [natDigits, h] at hc
      rcases hc with hc | hc
      · exact ih _ _ hc
      · subst hc
        exact digitChar_isDigit _ (Nat.mod_lt _ (by norm_num))

lemma natRepr_digits (n : Nat) : ∀ c ∈ natRepr n, c.isDigit = true :=
  natDigits_digits (n + 1) n

lemma natRepr_ne_nil (n : Nat) : natRepr n ≠ [] := by
  unfold natRepr natDigits
  by_cases h : n < 10 <;> simp [h]

lemma digitsVal_append_one (l : List Char) (c : Char) :
    digitsVal (l ++ [c]) = digitsVal l * 10 + (c.toNat - 48) := by
  simp [digitsVal, List.foldl_append]

lemma digitsVal_natDigits : ∀ fuel n, n < fuel → digitsVal (natDigits fuel n) = n := by
  intro fuel
  induction fuel with
  | zero => intro n h; exact absurd h (Nat.not_lt_zero n)
  | succ f ih =>
    intro n h
    by_cases h10 : n < 10
    · have hv := digitChar_val n h10
      simp [natDigits, h10, digitsVal]
      omega
    · have hdf : n / 10 < f := by
        have h1 : n / 10 < n := Nat.div_lt_self (by omega) (by norm_num)
        omega
      have hv := digitChar_val (n % 10) (Nat.mod_lt _ (by norm_num))
      simp [natDigits, h10, digitsVal_append_one, ih _ hdf]
      omega

lemma natRepr_inj {a b : Nat} (h : natRepr a = natRepr b) : a = b := by
  have ha := digitsVal_natDigits (a + 1) a (Nat.lt_succ_self a)
  have hb := digitsVal_natDigits (b + 1) b (Nat.lt_succ_self b)
  unfold natRepr at h
  rw [← ha, ← hb, h]

lemma isDigit_ne_plus {c : Char} (h : c.isDigit = true) : c ≠ '+' := by
  intro hc
  subst hc
  simp at h

lemma natRepr_no_plus (n : Nat) : '+' ∉ natRepr n := by
  intro h
  exact isDigit_ne_plus (natRepr_digits n _ h) rfl

lemma intRepr_no_plus (i : Int) : '+' ∉ intRepr i := by
  cases i with
  | ofNat m => exact natRepr_no_plus m
  | negSucc m =>
    intro h
    simp only [intRepr] at h
    rcases List.mem_cons.mp h with h | h
    · exact absurd h (by decide)
    · exact natRepr_no_plus _ h

-- ---------------------------------------------------------------------------
-- Separator parsing lemmas for the fingerprint
-- ---------------------------------------------------------------------------

lemma sep_peel : ∀ (a b r s : List Char), '+' ∉ a → '+' ∉ b →
    a ++ '+' :: r = b ++ '+' :: s → a = b ∧ r = s := by
  intro a
  induction a with
  | nil =>
    intro b r s _ hb h
    cases b with
    | nil => simpa using h
    | cons d b' =>
      simp at h
      exact absurd (h.1 ▸ List.mem_cons_self d b') hb
  | cons c a' ih =>
    intro b r s ha hb h
    cases b with
    | nil =>
      simp at h
      exact absurd (h.1 ▸ List.mem_cons_self c a') ha
    | cons d b' =>
      simp at h
      obtain ⟨hcd, h2⟩ := h
      have := ih b' r s (fun hm => ha (List.mem_cons_of_mem c hm))
        (fun hm => hb (List.mem_cons_of_mem d hm)) h2
      exact ⟨by rw [hcd, this.1], this.2⟩

lemma pyJoinD_cons (sep x : List Char) (l : List (List Char))
    (h : l ≠ []) : pyJoinD sep (x :: l) = x ++ sep ++ pyJoinD sep l := by
  cases l with
  | nil => exact absurd rfl h
  | cons y ys => rfl

lemma pyJoinD_inj : ∀ (l1 l2 : List (List Char)),
    (∀ x ∈ l1, x ≠ [] ∧ '+' ∉ x) → (∀ x ∈ l2, x ≠ [] ∧ '+' ∉ x) →
    pyJoinD ['+'] l1 = pyJoinD ['+'] l2 → l1 = l2 := by
  intro l1
  induction l1 with
  | nil =>
    intro l2 _ h2 h
    cases l2 with
    | nil => rfl
    | cons y ys =>
      cases ys with
      | nil =>
        simp [pyJoinD] at h
        exact ((h2 y (List.mem_cons_self y [])).1 h).elim
      | cons z zs =>
        rw [pyJoinD_cons ['+'] y (z :: zs) (by simp)] at h
        have : ('+' : Char) ∈ pyJoinD ['+'] ([] : List (List Char)) := by
          rw [h]; simp
        simp [pyJoinD] at this
  | cons x xs ih =>
    intro l2 h1 h2 h
    cases xs with
    | nil =>
      cases l2 with
      | nil =>
        simp [pyJoinD] at h
        exact absurd h (h1 x (List.mem_cons_self x [])).1
      | cons y ys =>
        cases ys with
        | nil => simpa [pyJoinD] using h
        | cons z zs =>
          rw [pyJoinD_cons ['+'] y (z :: zs) (by simp)] at h
          have hmem : ('+' : Char) ∈ pyJoinD ['+'] [x] := by rw [h]; simp
          simp [pyJoinD] at hmem
          exact absurd hmem (h1 x (by simp)).2
    | cons x2 xs2 =>
      cases l2 with
      | nil =>
        rw [pyJoinD_cons ['+'] x (x2 :: xs2) (by simp)] at h
        have : ('+' : Char) ∈ pyJoinD ['+'] ([] : List (List Char)) := by
          rw [← h]; simp
        simp [pyJoinD] at this
      | cons y ys =>
        cases ys with
        | nil =>
          rw [pyJoinD_cons ['+'] x (x2 :: xs2) (by simp)] at h
          have hmem : ('+' : Char) ∈ pyJoinD ['+'] [y] := by rw [← h]; simp
          simp [pyJoinD] at hmem
          exact absurd hmem (h2 y (by simp)).2
        | cons z zs =>
          rw [pyJoinD_cons ['+'] x (x2 :: xs2) (by simp),
            pyJoinD_cons ['+'] y (z :: zs) (by simp)] at h
          have h' : x ++ '+' :: pyJoinD ['+'] (x2 :: xs2) =
              y ++ '+' :: pyJoinD ['+'] (z :: zs) := by
            simpa [List.append_assoc] using h
          obtain ⟨hxy, hrest⟩ :=
            sep_peel x y _ _ (h1 x (by simp)).2 (h2 y (by simp)).2 h'
          have htail := ih (z :: zs) (fun a ha => h1 a (List.mem_cons_of_mem x ha))
            (fun a ha => h2 a (List.mem_cons_of_mem y ha)) hrest
          rw [hxy, htail]

lemma isDigits_chunk {o : List Char} (h : isDigits o = true) : o ≠ [] ∧ '+' ∉ o := by
  unfold isDigits at h
  rw [Bool.and_eq_true] at h
  constructor
  · intro hn
    rw [hn] at h
    simp at h
  · intro hp
    have := List.all_eq_true.mp h.2 '+' hp
    simp at this

lemma string_data_injective : Function.Injective String.data := by
  intro a b hab
  cases a
  cases b
  exact congrArg String.mk hab

/-- Claim C2: the fingerprint built by `LookupWorker.run` is exactly the
fields `1`, the track count, the leadout sector and the per-track start
sectors joined by `+`, and on structurally valid TOCs the rendering is
injective: TOCs differing in any offset, the leadout, or the track count
produce different fingerprint strings. -/
theorem fingerprint_format_and_injective :
    (∀ t : TOC, t.offsets ≠ [] → tocString t =
      pyJoinS "+" ("1" :: (⟨natRepr t.track_count⟩ : String) ::
        (⟨intRepr t.leadout⟩ : String) :: t.offsets)) ∧
    (∀ t1 t2 : TOC, t1.wf → t2.wf → tocString t1 = tocString t2 → t1 = t2) := by
  constructor
  · intro t h
    unfold tocString pyJoinS
    have hne : t.offsets.map String.data ≠ [] := by simpa using h
    have hmap : (("1" :: (⟨natRepr t.track_count⟩ : String) ::
        (⟨intRepr t.leadout⟩ : String) :: t.offsets).map String.data) =
        ['1'] :: natRepr t.track_count :: intRepr t.leadout ::
          t.offsets.map String.data := rfl
    have hsep : ("+" : String).data = ['+'] := rfl
    rw [hmap, hsep,
      pyJoinD_cons ['+'] ['1'] _ (by simp),
      pyJoinD_cons ['+'] (natRepr t.track_count) _ (by simp),
      pyJoinD_cons ['+'] (intRepr t.leadout) _ hne]
    simp [tocStringD, List.append_assoc]
  · intro t1 t2 hw1 hw2 h
    have hd : tocStringD t1 = tocStringD t2 := congrArg String.data h
    unfold tocStringD at hd
    have hd1 : natRepr t1.track_count ++ '+' :: (intRepr t1.leadout ++
        '+' :: pyJoinD ['+'] (t1.offsets.map String.data)) =
        natRepr t2.track_count ++ '+' :: (intRepr t2.leadout ++
        '+' :: pyJoinD ['+'] (t2.offsets.map String.data)) := by
      simpa using hd
    obtain ⟨hA, hd2⟩ :=
      sep_peel _ _ _ _ (natRepr_no_plus _) (natRepr_no_plus _) hd1
    obtain ⟨hB, hd3⟩ :=
      sep_peel _ _ _ _ (intRepr_no_plus _) (intRepr_no_plus _) hd2
    have htc : t1.track_count = t2.track_count := natRepr_inj hA
    obtain ⟨m1, hm1⟩ := Int.eq_ofNat_of_zero_le hw1.2
    obtain ⟨m2, hm2⟩ := Int.eq_ofNat_of_zero_le hw2.2
    have hlo : t1.leadout = t2.leadout := by
      rw [hm1, hm2] at hB ⊢
      exact congrArg Int.ofNat (natRepr_inj (by simpa [intRepr] using hB))
    have hoff : t1.offsets = t2.offsets := by
      have hinj := pyJoinD_inj (t1.offsets.map String.data)
        (t2.offsets.map String.data)
        (fun x hx => by
          obtain ⟨o, ho, rfl⟩ := List.mem_map.mp hx
          exact isDigits_chunk (hw1.1 o ho))
        (fun x hx => by
          obtain ⟨o, ho, rfl⟩ := List.mem_map.mp hx
          exact isDigits_chunk (hw2.1 o ho))
        hd3
      exact List.map_injective_iff.mpr string_data_injective hinj
    cases t1
    cases t2
    simp only at htc hoff hlo
    simp [htc, hoff, hlo]

-- ---------------------------------------------------------------------------
-- Parser correctness lemmas
-- ---------------------------------------------------------------------------

lemma getElem?_eq_some_getD {α : Type} (d : α) :
    ∀ (xs : List α) (n : Nat), n < xs.length → xs[n]? = some (xs.getD n d) := by
  intro xs
  induction xs with
  | nil => intro n h; simp at h
  | cons a l ih =>
    intro n h
    cases n with
    | zero => simp
    | succ m => simpa using ih m (by simpa using h)

lemma getD_of_getElem?_none {α : Type} (d : α) :
    ∀ (xs : List α) (n : Nat), xs[n]? = none → xs.getD n d = d := by
  intro xs
  induction xs with
  | nil => intro n _; simp
  | cons a l ih =>
    intro n h
    cases n with
    | zero => simp at h
    | succ m => simpa using ih m (by simpa using h)

lemma getD_of_getElem?_some {α : Type} (d : α) :
    ∀ (xs : List α) (n : Nat) (a : α), xs[n]? = some a → xs.getD n d = a := by
  intro xs
  induction xs with
  | nil => intro n a h; simp at h
  | cons x l ih =>
    intro n a h
    cases n with
    | zero =>
      rw [List.getElem?_cons_zero] at h
      simp only [Option.some.injEq] at h
      simp [h]
    | succ m => simpa using ih m a (by simpa using h)

lemma offsetsOf_eq_map : ∀ (L : List String),
    (∀ l ∈ L, 3 < (pySplit l).length) →
    offsetsOf L = some (L.map (fun l => (pySplit l).getD 3 "")) := by
  intro L
  induction L with
  | nil => intro _; rfl
  | cons a l ih =>
    intro h
    have ha := getElem?_eq_some_getD "" (pySplit a) 3 (h a (by simp))
    have hl := ih (fun x hx => h x (List.mem_cons_of_mem a hx))
    show (match (pySplit a)[3]? with
      | none => none
      | some f =>
        match offsetsOf l with
        | none => none
        | some fs => some (f :: fs)) =
      some ((a :: l).map (fun x => (pySplit x).getD 3 ""))
    rw [ha, hl]
    rfl

lemma parseTOC_ok_of_wf (lines : List String) (fv tv : Int)
    (h1 : lines.filter isTrackLine ≠ [])
    (h2 : ∀ l ∈ lines.filter isTrackLine, 3 < (pySplit l).length)
    (h3 : pyInt? ((pySplit ((lines.filter isTrackLine).headD "")).getD 3 "") = some fv)
    (htot : totalSectors lines = .ok tv) :
    parseTOC lines = .ok ⟨(lines.filter isTrackLine).length,
      (lines.filter isTrackLine).map (fun l => (pySplit l).getD 3 ""), fv + tv⟩ := by
  have hlen : ¬ (lines.filter isTrackLine).length = 0 := by
    simpa [List.length_eq_zero] using h1
  have hhead : (lines.filter isTrackLine).headD "" ∈ lines.filter isTrackLine := by
    cases hx : lines.filter isTrackLine with
    | nil => exact absurd hx h1
    | cons a l => simp
  have h4 : 3 < (pySplit ((lines.filter isTrackLine).headD "")).length := h2 _ hhead
  have hb : Option.bind ((pySplit ((lines.filter isTrackLine).headD ""))[3]?)
      pyInt? = some fv := by
    rw [getElem?_eq_some_getD "" _ _ h4]
    exact h3
  unfold parseTOC
  rw [if_neg hlen, offsetsOf_eq_map _ h2, hb, htot]

/-- Claim C1: on diagnostic text with at least one track line (each
carrying a 4th whitespace field, the first one numeric) and a TOTAL line
whose 2nd field is numeric, the parser of `LookupWorker.run` yields a
TOC whose `track_count` is the number of track lines, whose `offsets`
are the 4th fields of the track lines in order, and whose
`leadout_sector` is the first track's start sector plus the TOTAL line's
sector count (not a value relative to sector 0). -/
theorem toc_parse_correct (lines : List String) (tl : String) (fv tv : Int)
    (h1 : lines.filter isTrackLine ≠ [])
    (h2 : ∀ l ∈ lines.filter isTrackLine, 3 < (pySplit l).length)
    (h3 : pyInt? ((pySplit ((lines.filter isTrackLine).headD "")).getD 3 "") = some fv)
    (h4 : lines.find? isTotalLine = some tl)
    (h5 : pyInt? ((pySplit tl).getD 1 "") = some tv) :
    parseTOC lines = .ok ⟨(lines.filter isTrackLine).length,
      (lines.filter isTrackLine).map (fun l => (pySplit l).getD 3 ""), fv + tv⟩ := by
  apply parseTOC_ok_of_wf lines fv tv h1 h2 h3
  cases hg : (pySplit tl)[1]? with
  | none =>
    rw [getD_of_getElem?_none "" _ _ hg] at h5
    have hempty : pyInt? "" = none := rfl
    rw [hempty] at h5
    exact Option.noConfusion h5
  | some a =>
    rw [getD_of_getElem?_some "" _ _ _ hg] at h5
    have hb : Option.bind ((pySplit tl)[1]?) pyInt? = some tv := by
      rw [hg]
      exact h5
    simp only [totalSectors, h4, hb]

/-- Closed instance of `toc_parse_correct` on the spec's scenario text:
two track lines at relative sectors 0 and 21000 and a `TOTAL 42000`
line parse to the TOC (2, [0, 21000], leadout 42000). -/
theorem toc_parse_correct_witness :
    parseTOC ["junk", "1. x y 0", "2. x y 21000", "TOTAL 42000 z"] =
      .ok ⟨2, ["0", "21000"], 42000⟩ :=
  toc_parse_correct _ "TOTAL 42000 z" 0 42000 (by decide) (by decide) (by decide)
    (by decide) (by decide)

/-- Counterexample to claim C3: diagnostic text with one track line and
no TOTAL line does not fail with `MissingTotalSectors` — the code has no
such error path; the total defaults to 0 and a TOC (and then a
fingerprint) is produced. -/
theorem missing_total_not_error_cex :
    parseTOC ["1. x y 0"] = .ok ⟨1, ["0"], 0⟩ ∧
    ∀ e, parseTOC ["1. x y 0"] ≠ .error e := by
  refine ⟨by decide, ?_⟩
  intro e
  cases e <;> decide

/-- Claim C3 (amended): with zero track lines, parsing fails with
`NoAudioTracks`; with track lines but no TOTAL line parsing does not
fail — the sector total silently defaults to 0, so a TOC whose leadout
equals the first track's start sector is produced and a fingerprint is
still built. -/
theorem toc_parse_failure_modes :
    (∀ lines : List String, lines.filter isTrackLine = [] →
      parseTOC lines = .error .NoAudioTracks) ∧
    (∀ (lines : List String) (fv : Int),
      lines.filter isTrackLine ≠ [] →
      (∀ l ∈ lines.filter isTrackLine, 3 < (pySplit l).length) →
      pyInt? ((pySplit ((lines.filter isTrackLine).headD "")).getD 3 "") = some fv →
      lines.find? isTotalLine = none →
      parseTOC lines = .ok ⟨(lines.filter isTrackLine).length,
        (lines.filter isTrackLine).map (fun l => (pySplit l).getD 3 ""), fv⟩) := by
  constructor
  · intro lines h
    unfold parseTOC
    rw [h]
    rfl
  · intro lines fv h1 h2 h3 h4
    have h := parseTOC_ok_of_wf lines fv 0 h1 h2 h3
      (by unfold totalSectors; rw [h4])
    simpa using h

/-- Closed instance of `toc_parse_failure_modes` at concrete inputs
with zero track lines and with a track line but no TOTAL line. -/
theorem toc_parse_failure_modes_witness :
    parseTOC ["no tracks"] = .error .NoAudioTracks ∧
    parseTOC ["1. x y 7"] = .ok ⟨1, ["7"], 7⟩ := by
  constructor
  · exact toc_parse_failure_modes.1 ["no tracks"] (by decide)
  · exact toc_parse_failure_modes.2 ["1. x y 7"] 7 (by decide) (by decide)
      (by decide) (by decide)

/-- Counterexample to claim C6: the code only checks that the first
token ends in `.`, so the non-numeric line `ab. x y 3` is treated as a
track line; and a malformed non-matching line (`TOTAL` with no second
field) is not tolerated — it aborts the parse with an exception. -/
theorem track_line_pattern_cex :
    (isTrackLine "ab. x y 3" = true ∧ specIsTrackLine "ab. x y 3" = false) ∧
    (isTrackLine "TOTAL" = false ∧ specIsTrackLine "TOTAL" = false ∧
      parseTOC ["1. x y 0", "TOTAL"] = .error .PyException) := by decide

/-- Claim C6 (amended): a line is treated as a track line iff its
stripped text is nonempty and its first whitespace-delimited token ends
in `.` (the token need not be numeric); and any line that is neither a
track line nor a TOTAL line is ignored wherever it occurs — inserting
such a line anywhere leaves the parse result unchanged.  (Lines whose
stripped text starts with `TOTAL` can still abort the parse when
malformed, per the counterexample.) -/
theorem track_line_characterization :
    (∀ l : String, isTrackLine l = true ↔
      (pyStripD l.data ≠ [] ∧
        ((pySplitD (pyStripD l.data)).headD []).getLast? = some '.')) ∧
    (∀ (pre post : List String) (junk : String),
      isTrackLine junk = false → isTotalLine junk = false →
      parseTOC (pre ++ junk :: post) = parseTOC (pre ++ post)) := by
  constructor
  · intro l
    unfold isTrackLine
    rw [Bool.and_eq_true, beq_iff_eq]
    constructor
    · rintro ⟨hne, hdot⟩
      refine ⟨?_, hdot⟩
      intro hn
      rw [hn] at hne
      simp at hne
    · rintro ⟨hne, hdot⟩
      refine ⟨?_, hdot⟩
      simpa [List.isEmpty_iff] using hne
  · intro pre post junk hjt hjtot
    have hfind : (pre ++ junk :: post).find? isTotalLine =
        (pre ++ post).find? isTotalLine := by
      induction pre with
      | nil => simp [List.find?_cons, hjtot]
      | cons a p ih =>
        cases ha : isTotalLine a with
        | true => simp [List.find?_cons, ha]
        | false => simp [List.find?_cons, ha, hjtot, ih]
    have hfil : (pre ++ junk :: post).filter isTrackLine =
        (pre ++ post).filter isTrackLine := by
      simp [List.filter_append, List.filter_cons, hjt]
    unfold parseTOC totalSectors
    rw [hfil, hfind]

/-- Closed instance of `track_line_characterization`: a numeric-label
line is a track line, and inserting a noise line in the middle of the
spec's scenario text leaves the parse unchanged. -/
theorem track_line_characterization_witness :
    isTrackLine "  3.  foo" = true ∧
    parseTOC (["1. a b 5"] ++ "noise here" :: ["TOTAL 9"]) =
      parseTOC (["1. a b 5"] ++ ["TOTAL 9"]) := by
  constructor
  · exact (track_line_characterization.1 "  3.  foo").mpr ⟨by decide, by decide⟩
  · exact track_line_characterization.2 ["1. a b 5"] ["TOTAL 9"] "noise here"
      (by decide) (by decide)

/-- Closed instance of `fingerprint_format_and_injective`: the spec's
scenario TOC renders to `1+2+42000+0+21000`, and a TOC differing in one
offset renders differently. -/
theorem fingerprint_format_and_injective_witness :
    tocString ⟨2, ["0", "21000"], 42000⟩ =
      pyJoinS "+" ["1", "2", "42000", "0", "21000"] ∧
    (tocString ⟨2, ["0", "21000"], 42000⟩ = tocString ⟨2, ["0", "21001"], 42000⟩ →
      (⟨2, ["0", "21000"], 42000⟩ : TOC) = ⟨2, ["0", "21001"], 42000⟩) := by
  constructor
  · exact fingerprint_format_and_injective.1 ⟨2, ["0", "21000"], 42000⟩ (by decide)
  · exact fun h =>
      fingerprint_format_and_injective.2 _ _ (by decide) (by decide) h

-- ---------------------------------------------------------------------------
-- Lookup flow theorems
-- ---------------------------------------------------------------------------

/-- Claim C7: a well-formed lookup response with an empty `releases`
array and no `cdstub` key yields the worker's no-match error; a
response carrying only a disc-stub indicator and no releases is
surfaced by `App.lookup_finished` as a distinguishable error prompting
manual entry, never as a usable candidate list. -/
theorem lookup_nomatch_and_stub (m : MBResponse) :
    (m.releases? = some [] → m.cdstub = false →
      lookupFlow m = .workerError "No releases found for this disc.") ∧
    (m.cdstub = true → m.releases?.getD [] = [] →
      lookupFlow m = .appError
        "Found a CDStub, but no official release. Please add to MusicBrainz or enter manually." ∧
      ∀ rs, lookupFlow m ≠ .candidates rs) ∧
    ("Found a CDStub, but no official release. Please add to MusicBrainz or enter manually." ≠
        "No releases found for this disc." ∧
      "Found a CDStub, but no official release. Please add to MusicBrainz or enter manually." ≠
        "Could not find metadata for this disc.") := by
  refine ⟨?_, ?_, by decide⟩
  · intro h1 h2
    simp [lookupFlow, workerHandle, lookup_finished, h1, h2]
  · intro hc hr
    have he : lookupFlow m = .appError
        "Found a CDStub, but no official release. Please add to MusicBrainz or enter manually." := by
      simp [lookupFlow, workerHandle, lookup_finished, hc, hr]
    refine ⟨he, fun rs hne => ?_⟩
    rw [he] at hne
    exact LookupOutcome.noConfusion hne

/-- Closed instance of `lookup_nomatch_and_stub` at the two concrete
response shapes of the claim. -/
theorem lookup_nomatch_and_stub_witness :
    lookupFlow ⟨some [], false⟩ = .workerError "No releases found for this disc." ∧
    lookupFlow ⟨none, true⟩ = .appError
      "Found a CDStub, but no official release. Please add to MusicBrainz or enter manually." :=
  ⟨(lookup_nomatch_and_stub ⟨some [], false⟩).1 rfl rfl,
    ((lookup_nomatch_and_stub ⟨none, true⟩).2.1 rfl (by decide)).1⟩

-- ---------------------------------------------------------------------------
-- Rip pipeline theorems
-- ---------------------------------------------------------------------------

lemma ripTracks_no_fs (cfg : RipConfig) (env : Nat → TrackEnv)
    (outPath coverPath : String) (total : Nat) :
    ∀ (ts : List Track) (i : Nat),
      ∀ e ∈ ripTracks cfg env outPath coverPath total i ts, e.isFs = false := by
  intro ts
  induction ts with
  | nil =>
    intro i e he
    simp only [ripTracks] at he
    rw [List.mem_singleton] at he
    subst he
    rfl
  | cons tr rest ih =>
    intro i e he
    rw [ripTracks] at he
    split at he
    · rw [List.mem_singleton] at he
      subst he
      rfl
    · rw [List.mem_cons] at he
      rcases he with rfl | he
      · rfl
      · split at he
        · rw [List.mem_cons] at he
          rcases he with rfl | he
          · rfl
          rw [List.mem_cons] at he
          rcases he with rfl | he
          · rfl
          split at he
          · rw [List.mem_singleton] at he
            subst he
            rfl
          · rw [List.mem_cons] at he
            rcases he with rfl | he
            · rfl
            · exact ih (i + 1) e he
        · rw [List.mem_cons] at he
          rcases he with rfl | he
          · rfl
          rw [List.mem_cons] at he
          rcases he with rfl | he
          · rfl
          rw [List.mem_cons] at he
          rcases he with rfl | he
          · rfl
          split at he
          · rw [List.mem_singleton] at he
            subst he
            rfl
          · rw [List.mem_cons] at he
            rcases he with rfl | he
            · rfl
            · exact ih (i + 1) e he

/-- Claim C8: a rip job with an empty artist, empty album or empty track
list fails before any filesystem write or process launch; a job passing
validation first creates the output directory with the idempotent
`exist_ok=True` flag, then persists the cover art (when present) once to
the fixed name `cover.jpg` in that directory, and only afterwards runs
the per-track pipeline, which performs no further directory or cover
writes. -/
theorem rip_validation_and_setup (cfg : RipConfig) (env : Nat → TrackEnv) :
    ((cfg.artist = "" ∨ cfg.album = "" ∨ cfg.tracks = []) →
      start_rip cfg env =
        [.err "Artist, Album, and Track information cannot be empty."]) ∧
    (¬(cfg.artist = "" ∨ cfg.album = "" ∨ cfg.tracks = []) →
      ∃ rest, start_rip cfg env =
          RipEvent.mkdir (outputDir cfg) true ::
            ((if cfg.cover_art then
              [RipEvent.savedCover (osJoin (outputDir cfg) "cover.jpg")] else []) ++
              rest) ∧
        ∀ e ∈ rest, e.isFs = false) := by
  constructor
  · intro h
    simp [start_rip, h]
  · intro h
    refine ⟨ripTracks cfg env (outputDir cfg)
      (if cfg.cover_art then osJoin (outputDir cfg) "cover.jpg" else "")
      cfg.tracks.length 0 cfg.tracks, ?_, ?_⟩
    · cases hc : cfg.cover_art with
      | true => simp [start_rip, h, ripRun, hc]
      | false => simp [start_rip, h, ripRun, hc]
    · exact ripTracks_no_fs cfg env (outputDir cfg) _ _ cfg.tracks 0

/-- Closed instance of `rip_validation_and_setup`: an invalid job (empty
artist) emits only the validation error, and a valid one-track job with
cover art begins with the directory creation and the cover save. -/
theorem rip_validation_and_setup_witness :
    start_rip ⟨"/dev/sr0", "FLAC", "/music", "", "B", "", "", "",
        [⟨"1", "t"⟩], false⟩ (fun _ => ⟨⟨0, ""⟩, ⟨0, ""⟩⟩) =
      [.err "Artist, Album, and Track information cannot be empty."] ∧
    ∃ rest, start_rip ⟨"/dev/sr0", "FLAC", "/music", "A", "B", "", "", "",
        [⟨"1", "t"⟩], true⟩ (fun _ => ⟨⟨0, ""⟩, ⟨0, ""⟩⟩) =
      RipEvent.mkdir "/music/A/B" true ::
        ([RipEvent.savedCover "/music/A/B/cover.jpg"] ++ rest) ∧
      ∀ e ∈ rest, e.isFs = false := by
  constructor
  · exact (rip_validation_and_setup _ _).1 (Or.inl rfl)
  · have h := (rip_validation_and_setup
      ⟨"/dev/sr0", "FLAC", "/music", "A", "B", "", "", "", [⟨"1", "t"⟩], true⟩
      (fun _ => ⟨⟨0, ""⟩, ⟨0, ""⟩⟩)).2 (by decide)
    obtain ⟨rest, h1, h2⟩ := h
    exact ⟨rest, by rw [h1]; rfl, h2⟩

-- ---------------------------------------------------------------------------
-- Step lemmas for the per-track loop
-- ---------------------------------------------------------------------------

lemma ripTracks_pipe_fail (cfg : RipConfig) (env : Nat → TrackEnv) (o c : String)
    (t i : Nat) (tr : Track) (rest : List Track) (n : Int)
    (hn : pyInt? tr.number = some n) (hfmt : ¬ cfg.format = "WAV")
    (hfail : ¬ (env i).enc.exitCode = 0) :
    ripTracks cfg env o c t i (tr :: rest) =
      [.status ("Ripping Track " ++ (⟨intRepr n⟩ : String) ++ "/" ++
         (⟨natRepr t⟩ : String) ++ ": '" ++ tr.title ++ "'"),
       .log ("Ripping: " ++
         pyJoinS " " ["cdparanoia", "-q", "-d", cfg.device, ⟨intRepr n⟩, "-"]),
       .log ("Encoding: " ++ pyJoinS " "
         (get_encoder_cmd cfg tr c (output_filename o cfg.format n tr.title))),
       .ranPipe ["cdparanoia", "-q", "-d", cfg.device, ⟨intRepr n⟩, "-"]
         (get_encoder_cmd cfg tr c (output_filename o cfg.format n tr.title)),
       .err ("Encoder failed for track " ++ (⟨intRepr n⟩ : String) ++ ": " ++
         (env i).enc.stderr)] := by
  simp [ripTracks, hn, hfmt, hfail]

lemma ripTracks_pipe_ok (cfg : RipConfig) (env : Nat → TrackEnv) (o c : String)
    (t i : Nat) (tr : Track) (rest : List Track) (n : Int)
    (hn : pyInt? tr.number = some n) (hfmt : ¬ cfg.format = "WAV")
    (hok : (env i).enc.exitCode = 0) :
    ripTracks cfg env o c t i (tr :: rest) =
      .status ("Ripping Track " ++ (⟨intRepr n⟩ : String) ++ "/" ++
         (⟨natRepr t⟩ : String) ++ ": '" ++ tr.title ++ "'") ::
      .log ("Ripping: " ++
        pyJoinS " " ["cdparanoia", "-q", "-d", cfg.device, ⟨intRepr n⟩, "-"]) ::
      .log ("Encoding: " ++ pyJoinS " "
        (get_encoder_cmd cfg tr c (output_filename o cfg.format n tr.title))) ::
      .ranPipe ["cdparanoia", "-q", "-d", cfg.device, ⟨intRepr n⟩, "-"]
        (get_encoder_cmd cfg tr c (output_filename o cfg.format n tr.title)) ::
      .progress (i + 1) t :: ripTracks cfg env o c t (i + 1) rest := by
  simp [ripTracks, hn, hfmt, hok]

lemma ripTracks_wav_fail (cfg : RipConfig) (env : Nat → TrackEnv) (o c : String)
    (t i : Nat) (tr : Track) (rest : List Track) (n : Int)
    (hn : pyInt? tr.number = some n) (hfmt : cfg.format = "WAV")
    (hfail : ¬ (env i).rip.exitCode = 0) :
    ripTracks cfg env o c t i (tr :: rest) =
      [.status ("Ripping Track " ++ (⟨intRepr n⟩ : String) ++ "/" ++
         (⟨natRepr t⟩ : String) ++ ": '" ++ tr.title ++ "'"),
       .log ("Ripping directly to WAV: " ++ pyJoinS " "
         ["cdparanoia", "-q", "-d", cfg.device, ⟨intRepr n⟩,
           output_filename o cfg.format n tr.title]),
       .ranWav ["cdparanoia", "-q", "-d", cfg.device, ⟨intRepr n⟩,
         output_filename o cfg.format n tr.title],
       .err ("cdparanoia failed for track " ++ (⟨intRepr n⟩ : String) ++ ": " ++
         (env i).rip.stderr)] := by
  simp [ripTracks, hn, hfmt, hfail]

lemma ripTracks_wav_ok (cfg : RipConfig) (env : Nat → TrackEnv) (o c : String)
    (t i : Nat) (tr : Track) (rest : List Track) (n : Int)
    (hn : pyInt? tr.number = some n) (hfmt : cfg.format = "WAV")
    (hok : (env i).rip.exitCode = 0) :
    ripTracks cfg env o c t i (tr :: rest) =
      .status ("Ripping Track " ++ (⟨intRepr n⟩ : String) ++ "/" ++
         (⟨natRepr t⟩ : String) ++ ": '" ++ tr.title ++ "'") ::
      .log ("Ripping directly to WAV: " ++ pyJoinS " "
        ["cdparanoia", "-q", "-d", cfg.device, ⟨intRepr n⟩,
          output_filename o cfg.format n tr.title]) ::
      .ranWav ["cdparanoia", "-q", "-d", cfg.device, ⟨intRepr n⟩,
        output_filename o cfg.format n tr.title] ::
      .progress (i + 1) t :: ripTracks cfg env o c t (i + 1) rest := by
  simp [ripTracks, hn, hfmt, hok]

-- ---------------------------------------------------------------------------
-- Abort-on-failure characterization
-- ---------------------------------------------------------------------------

lemma exists_pre_cons {α : Type} (a : α) {l : List α} {x : α}
    (h : ∃ pre, l = pre ++ [x]) : ∃ pre, a :: l = pre ++ [x] := by
  obtain ⟨pre, hp⟩ := h
  exact ⟨a :: pre, by rw [hp]; rfl⟩

lemma ripTracks_enc_fail_spec (cfg : RipConfig) (env : Nat → TrackEnv)
    (o c : String) (t : Nat) (hfmt : ¬ cfg.format = "WAV") :
    ∀ (k : Nat) (ts : List Track) (i : Nat) (n : Int),
      k < ts.length →
      (∀ j, j < k → (pyInt? (ts.getD j default).number).isSome = true ∧
        (env (i + j)).enc.exitCode = 0) →
      pyInt? (ts.getD k default).number = some n →
      ¬ (env (i + k)).enc.exitCode = 0 →
      (ripTracks cfg env o c t i ts).countP RipEvent.isLaunch = k + 1 ∧
      (∃ pre, ripTracks cfg env o c t i ts =
        pre ++ [.err ("Encoder failed for track " ++ (⟨intRepr n⟩ : String) ++
          ": " ++ (env (i + k)).enc.stderr)]) ∧
      RipEvent.finished ∉ ripTracks cfg env o c t i ts ∧
      (ripTracks cfg env o c t i ts).filter RipEvent.isProg =
        (List.range k).map (fun j => RipEvent.progress (i + j + 1) t) := by
  intro k
  induction k with
  | zero =>
    intro ts i n hlen hpre hn hfail
    cases ts with
    | nil => simp at hlen
    | cons tr rest =>
      rw [List.getD_cons_zero] at hn
      rw [Nat.add_zero] at hfail
      rw [ripTracks_pipe_fail cfg env o c t i tr rest n hn hfmt hfail]
      simp only [Nat.add_zero]
      refine ⟨by simp [RipEvent.isLaunch], ?_, by simp, by simp [RipEvent.isProg]⟩
      exact exists_pre_cons _ (exists_pre_cons _ (exists_pre_cons _
        (exists_pre_cons _ ⟨[], rfl⟩)))
  | succ k ih =>
    intro ts i n hlen hpre hn hfail
    cases ts with
    | nil => simp at hlen
    | cons tr rest =>
      obtain ⟨hs0, he0⟩ := hpre 0 (Nat.succ_pos k)
      rw [List.getD_cons_zero] at hs0
      obtain ⟨m, hm⟩ := Option.isSome_iff_exists.mp hs0
      rw [Nat.add_zero] at he0
      rw [List.getD_cons_succ] at hn
      have hlen2 : k < rest.length := by simpa using hlen
      have hfail2 : ¬ (env (i + 1 + k)).enc.exitCode = 0 := by
        have harith : i + 1 + k = i + (k + 1) := by omega
        rw [harith]
        exact hfail
      have hpre2 : ∀ j, j < k → (pyInt? (rest.getD j default).number).isSome = true ∧
          (env (i + 1 + j)).enc.exitCode = 0 := by
        intro j hj
        have h := hpre (j + 1) (by omega)
        rw [List.getD_cons_succ] at h
        have harith : i + (j + 1) = i + 1 + j := by omega
        rw [harith] at h
        exact h
      obtain ⟨hc, ⟨pre, hp⟩, hf, hg⟩ := ih rest (i + 1) n hlen2 hpre2 hn hfail2
      rw [ripTracks_pipe_ok cfg env o c t i tr rest m hm hfmt he0]
      have harith : i + 1 + k = i + (k + 1) := by omega
      refine ⟨?_, ?_, ?_, ?_⟩
      · simp [List.countP_cons, RipEvent.isLaunch, hc]
      · rw [← harith]
        exact exists_pre_cons _ (exists_pre_cons _ (exists_pre_cons _
          (exists_pre_cons _ (exists_pre_cons _ ⟨pre, hp⟩))))
      · simp only [List.mem_cons]
        push_neg
        refine ⟨by simp, by simp, by simp, by simp, by simp, hf⟩
      · have harith2 : ∀ j : Nat, i + 1 + j + 1 = i + (j + 1) + 1 :=
          fun j => by omega
        simp [List.filter_cons, RipEvent.isProg, hg, List.range_succ_eq_map,
          List.map_map, Function.comp, harith2]

lemma ripTracks_wav_fail_spec (cfg : RipConfig) (env : Nat → TrackEnv)
    (o c : String) (t : Nat) (hfmt : cfg.format = "WAV") :
    ∀ (k : Nat) (ts : List Track) (i : Nat) (n : Int),
      k < ts.length →
      (∀ j, j < k → (pyInt? (ts.getD j default).number).isSome = true ∧
        (env (i + j)).rip.exitCode = 0) →
      pyInt? (ts.getD k default).number = some n →
      ¬ (env (i + k)).rip.exitCode = 0 →
      (ripTracks cfg env o c t i ts).countP RipEvent.isLaunch = k + 1 ∧
      (∃ pre, ripTracks cfg env o c t i ts =
        pre ++ [.err ("cdparanoia failed for track " ++ (⟨intRepr n⟩ : String) ++
          ": " ++ (env (i + k)).rip.stderr)]) ∧
      RipEvent.finished ∉ ripTracks cfg env o c t i ts ∧
      (ripTracks cfg env o c t i ts).filter RipEvent.isProg =
        (List.range k).map (fun j => RipEvent.progress (i + j + 1) t) := by
  intro k
  induction k with
  | zero =>
    intro ts i n hlen hpre hn hfail
    cases ts with
    | nil => simp at hlen
    | cons tr rest =>
      rw [List.getD_cons_zero] at hn
      rw [Nat.add_zero] at hfail
      rw [ripTracks_wav_fail cfg env o c t i tr rest n hn hfmt hfail]
      simp only [Nat.add_zero]
      refine ⟨by simp [RipEvent.isLaunch], ?_, by simp, by simp [RipEvent.isProg]⟩
      exact exists_pre_cons _ (exists_pre_cons _ (exists_pre_cons _ ⟨[], rfl⟩))
  | succ k ih =>
    intro ts i n hlen hpre hn hfail
    cases ts with
    | nil => simp at hlen
    | cons tr rest =>
      obtain ⟨hs0, he0⟩ := hpre 0 (Nat.succ_pos k)
      rw [List.getD_cons_zero] at hs0
      obtain ⟨m, hm⟩ := Option.isSome_iff_exists.mp hs0
      rw [Nat.add_zero] at he0
      rw [List.getD_cons_succ] at hn
      have hlen2 : k < rest.length := by simpa using hlen
      have hfail2 : ¬ (env (i + 1 + k)).rip.exitCode = 0 := by
        have harith : i + 1 + k = i + (k + 1) := by omega
        rw [harith]
        exact hfail
      have hpre2 : ∀ j, j < k → (pyInt? (rest.getD j default).number).isSome = true ∧
          (env (i + 1 + j)).rip.exitCode = 0 := by
        intro j hj
        have h := hpre (j + 1) (by omega)
        rw [List.getD_cons_succ] at h
        have harith : i + (j + 1) = i + 1 + j := by omega
        rw [harith] at h
        exact h
      obtain ⟨hc, ⟨pre, hp⟩, hf, hg⟩ := ih rest (i + 1) n hlen2 hpre2 hn hfail2
      rw [ripTracks_wav_ok cfg env o c t i tr rest m hm hfmt he0]
      have harith : i + 1 + k = i + (k + 1) := by omega
      refine ⟨?_, ?_, ?_, ?_⟩
      · simp [List.countP_cons, RipEvent.isLaunch, hc]
      · rw [← harith]
        exact exists_pre_cons _ (exists_pre_cons _ (exists_pre_cons _
          (exists_pre_cons _ ⟨pre, hp⟩)))
      · simp only [List.mem_cons]
        push_neg
        refine ⟨by simp, by simp, by simp, by simp, hf⟩
      · have harith2 : ∀ j : Nat, i + 1 + j + 1 = i + (j + 1) + 1 :=
          fun j => by omega
        simp [List.filter_cons, RipEvent.isProg, hg, List.range_succ_eq_map,
          List.map_map, Function.comp, harith2]

/-- Counterexample to claim C4: on the compressed (piped) path the
extractor's exit status is never examined.  With a two-track FLAC job
whose extractor exits 1 on every track while the encoder exits 0, the
run emits no failure at all: both tracks are attempted (two pipe
launches) and the job finishes normally. -/
theorem rip_extractor_fail_undetected_cex :
    ((fun _ => (⟨⟨1, "cdparanoia broke"⟩, ⟨0, ""⟩⟩ : TrackEnv)) 0).rip.exitCode = 1 ∧
    (ripRun ⟨"/dev/sr0", "FLAC", "/m", "A", "B", "", "", "",
        [⟨"1", "a"⟩, ⟨"2", "b"⟩], false⟩
      (fun _ => ⟨⟨1, "cdparanoia broke"⟩, ⟨0, ""⟩⟩)).countP RipEvent.isLaunch = 2 ∧
    (ripRun ⟨"/dev/sr0", "FLAC", "/m", "A", "B", "", "", "",
        [⟨"1", "a"⟩, ⟨"2", "b"⟩], false⟩
      (fun _ => ⟨⟨1, "cdparanoia broke"⟩, ⟨0, ""⟩⟩)).all (fun e => !e.isErr) = true ∧
    RipEvent.finished ∈ ripRun ⟨"/dev/sr0", "FLAC", "/m", "A", "B", "", "", "",
        [⟨"1", "a"⟩, ⟨"2", "b"⟩], false⟩
      (fun _ => ⟨⟨1, "cdparanoia broke"⟩, ⟨0, ""⟩⟩) := by decide

/-- Claim C4 (amended): the pipeline checks exactly one process per
track — the extractor on the WAV path, the encoder on the compressed
path.  When that checked process first exits non-zero at track index k
(earlier tracks' checked processes succeeding), the run emits a
per-track failure carrying that process's captured stderr as its last
event, launches only the k+1 attempted tracks (completed tracks are
never retried, and nothing in the trace deletes their files), never
reports completion, and reports progress exactly for the k completed
tracks.  On the compressed path the extractor's own exit status is never
consulted (see the counterexample). -/
theorem rip_abort_on_failure (cfg : RipConfig) (env : Nat → TrackEnv)
    (k : Nat) (n : Int) :
    (¬ cfg.format = "WAV" →
      k < cfg.tracks.length →
      (∀ j, j < k → (pyInt? (cfg.tracks.getD j default).number).isSome = true ∧
        (env j).enc.exitCode = 0) →
      pyInt? (cfg.tracks.getD k default).number = some n →
      ¬ (env k).enc.exitCode = 0 →
      (ripRun cfg env).countP RipEvent.isLaunch = k + 1 ∧
      (∃ pre, ripRun cfg env = pre ++
        [.err ("Encoder failed for track " ++ (⟨intRepr n⟩ : String) ++ ": " ++
          (env k).enc.stderr)]) ∧
      RipEvent.finished ∉ ripRun cfg env ∧
      (ripRun cfg env).filter RipEvent.isProg =
        (List.range k).map (fun j => RipEvent.progress (j + 1) cfg.tracks.length)) ∧
    (cfg.format = "WAV" →
      k < cfg.tracks.length →
      (∀ j, j < k → (pyInt? (cfg.tracks.getD j default).number).isSome = true ∧
        (env j).rip.exitCode = 0) →
      pyInt? (cfg.tracks.getD k default).number = some n →
      ¬ (env k).rip.exitCode = 0 →
      (ripRun cfg env).countP RipEvent.isLaunch = k + 1 ∧
      (∃ pre, ripRun cfg env = pre ++
        [.err ("cdparanoia failed for track " ++ (⟨intRepr n⟩ : String) ++ ": " ++
          (env k).rip.stderr)]) ∧
      RipEvent.finished ∉ ripRun cfg env ∧
      (ripRun cfg env).filter RipEvent.isProg =
        (List.range k).map (fun j => RipEvent.progress (j + 1) cfg.tracks.length)) := by
  constructor
  · intro hfmt hlen hpre hn hfail
    have h := ripTracks_enc_fail_spec cfg env (outputDir cfg)
      (if cfg.cover_art then osJoin (outputDir cfg) "cover.jpg" else "")
      cfg.tracks.length hfmt k cfg.tracks 0 n hlen
      (fun j hj => by simpa using hpre j hj) hn (by simpa using hfail)
    obtain ⟨hc, ⟨pre, hp⟩, hf, hg⟩ := h
    refine ⟨?_, ?_, ?_, ?_⟩
    · cases hca : cfg.cover_art with
      | true => simpa [ripRun, hca, List.countP_cons, RipEvent.isLaunch] using hc
      | false => simpa [ripRun, hca, List.countP_cons, RipEvent.isLaunch] using hc
    · cases hca : cfg.cover_art with
      | true =>
        rw [hca] at hp
        simp only [eq_self_iff_true, if_true] at hp
        refine ⟨.mkdir (outputDir cfg) true ::
          .savedCover (osJoin (outputDir cfg) "cover.jpg") :: pre, ?_⟩
        simp only [ripRun, hca, if_true, List.singleton_append]
        rw [hp]
        simp
      | false =>
        rw [hca] at hp
        simp only [Bool.false_eq_true, if_false] at hp
        refine ⟨.mkdir (outputDir cfg) true :: pre, ?_⟩
        simp only [ripRun, hca, Bool.false_eq_true, if_false, List.nil_append]
        rw [hp]
        simp
    · cases hca : cfg.cover_art with
      | true =>
        rw [hca] at hf
        simpa [ripRun, hca] using hf
      | false =>
        rw [hca] at hf
        simpa [ripRun, hca] using hf
    · cases hca : cfg.cover_art with
      | true =>
        rw [hca] at hg
        simpa [ripRun, hca, RipEvent.isProg, List.filter_append] using hg
      | false =>
        rw [hca] at hg
        simpa [ripRun, hca, RipEvent.isProg, List.filter_append] using hg
  · intro hfmt hlen hpre hn hfail
    have h := ripTracks_wav_fail_spec cfg env (outputDir cfg)
      (if cfg.cover_art then osJoin (outputDir cfg) "cover.jpg" else "")
      cfg.tracks.length hfmt k cfg.tracks 0 n hlen
      (fun j hj => by simpa using hpre j hj) hn (by simpa using hfail)
    obtain ⟨hc, ⟨pre, hp⟩, hf, hg⟩ := h
    refine ⟨?_, ?_, ?_, ?_⟩
    · cases hca : cfg.cover_art with
      | true => simpa [ripRun, hca, List.countP_cons, RipEvent.isLaunch] using hc
      | false => simpa [ripRun, hca, List.countP_cons, RipEvent.isLaunch] using hc
    · cases hca : cfg.cover_art with
      | true =>
        rw [hca] at hp
        simp only [eq_self_iff_true, if_true] at hp
        refine ⟨.mkdir (outputDir cfg) true ::
          .savedCover (osJoin (outputDir cfg) "cover.jpg") :: pre, ?_⟩
        simp only [ripRun, hca, if_true, List.singleton_append]
        rw [hp]
        simp
      | false =>
        rw [hca] at hp
        simp only [Bool.false_eq_true, if_false] at hp
        refine ⟨.mkdir (outputDir cfg) true :: pre, ?_⟩
        simp only [ripRun, hca, Bool.false_eq_true, if_false, List.nil_append]
        rw [hp]
        simp
    · cases hca : cfg.cover_art with
      | true =>
        rw [hca] at hf
        simpa [ripRun, hca] using hf
      | false =>
        rw [hca] at hf
        simpa [ripRun, hca] using hf
    · cases hca : cfg.cover_art with
      | true =>
        rw [hca] at hg
        simpa [ripRun, hca, RipEvent.isProg, List.filter_append] using hg
      | false =>
        rw [hca] at hg
        simpa [ripRun, hca, RipEvent.isProg, List.filter_append] using hg

/-- Closed instance of `rip_abort_on_failure`: with the encoder failing
on track 2 of 3, exactly two tracks are attempted, the trace ends in the
encoder's failure message, the job never finishes, and progress is
reported only for track 1. -/
theorem rip_abort_on_failure_witness :
    (ripRun c4cfg c4env).countP RipEvent.isLaunch = 2 ∧
    (∃ pre, ripRun c4cfg c4env = pre ++
      [.err ("Encoder failed for track " ++ (⟨intRepr 2⟩ : String) ++ ": " ++
        "enc boom")]) ∧
    RipEvent.finished ∉ ripRun c4cfg c4env ∧
    (ripRun c4cfg c4env).filter RipEvent.isProg = [.progress 1 3] :=
  (rip_abort_on_failure c4cfg c4env 1 2).1 (by decide) (by decide) (by decide)
    (by decide) (by decide)

-- ---------------------------------------------------------------------------
-- Output path formula
-- ---------------------------------------------------------------------------

lemma mem_of_getLast?_some {α : Type} {l : List α} {a : α}
    (h : l.getLast? = some a) : a ∈ l := by
  rw [List.getLast?_eq_head?_reverse] at h
  have h2 := List.mem_of_mem_head? h
  rwa [List.mem_reverse] at h2

lemma getLast?_append_right {α : Type} (l1 l2 : List α) (h : l2 ≠ []) :
    (l1 ++ l2).getLast? = l2.getLast? := by
  rw [List.getLast?_append]
  cases hl : l2.getLast? with
  | none => exact absurd (List.getLast?_eq_none_iff.mp hl) h
  | some a => rfl

lemma head?_append_left {α : Type} (l1 l2 : List α) (h : l1 ≠ []) :
    (l1 ++ l2).head? = l1.head? := by
  rw [List.head?_append]
  cases hl : l1.head? with
  | none => exact absurd (List.head?_eq_none_iff.mp hl) h
  | some a => rfl

lemma mem_pyRstripD {c : Char} {l : List Char} (h : c ∈ pyRstripD l) : c ∈ l := by
  unfold pyRstripD at h
  rw [List.mem_reverse] at h
  have h2 := (List.dropWhile_sublist _).subset h
  rwa [List.mem_reverse] at h2

lemma sanitize_no_slash (s : String) : '/' ∉ (sanitize s).data := by
  intro h
  have h2 := mem_pyRstripD h
  rw [List.mem_filter] at h2
  exact absurd h2.2 (by decide)

lemma data_ne_nil_of_ne_empty {s : String} (h : s ≠ "") : s.data ≠ [] :=
  fun hd => h (string_data_injective (by rw [hd]))

lemma osJoin_eq (a b : String) (ha1 : a.data ≠ []) (ha2 : a.data.getLast? ≠ some '/')
    (hb : b.data.head? ≠ some '/') : osJoin a b = a ++ "/" ++ b := by
  unfold osJoin
  rw [if_neg hb, if_neg ha1, if_neg ha2]
  apply string_data_injective
  have hs : ("/" : String).data = ['/'] := rfl
  simp [String.data_append, hs]

lemma data_append_sep (a b : String) :
    (a ++ "/" ++ b).data = a.data ++ '/' :: b.data := by
  have hs : ("/" : String).data = ['/'] := rfl
  simp [String.data_append, hs]

lemma isDigit_ne_slash {c : Char} (h : c.isDigit = true) : c ≠ '/' := by
  intro hc
  subst hc
  simp at h

lemma intPad2_no_slash (n : Int) : '/' ∉ intPad2 n := by
  cases n with
  | ofNat m =>
    by_cases h : m < 10
    · simp only [intPad2, h, if_true]
      intro hm
      rcases List.mem_cons.mp hm with hm | hm
      · exact absurd hm (by decide)
      · exact isDigit_ne_slash (natRepr_digits m _ hm) rfl
    · simp only [intPad2, h, if_false]
      intro hm
      exact isDigit_ne_slash (natRepr_digits m _ hm) rfl
  | negSucc m =>
    intro hm
    simp only [intPad2] at hm
    rcases List.mem_cons.mp hm with hm | hm
    · exact absurd hm (by decide)
    · exact isDigit_ne_slash (natRepr_digits _ _ hm) rfl

lemma intPad2_ne_nil (n : Int) : intPad2 n ≠ [] := by
  cases n with
  | ofNat m =>
    by_cases h : m < 10 <;> simp [intPad2, h, natRepr_ne_nil]
  | negSucc m => simp [intPad2]

/-- Claim C9: every track's output file path is
`<root>/<sanitized artist>/<sanitized album>[/Disc <n>]/<NN>. <sanitized
title>.<lowercased format extension>`; in particular a rip job for
artist `Foo/Bar`, album `Baz`, track 1 `Title: One` in FLAC sends
`/music/FooBar/Baz/01. Title One.flac` to the encoder. -/
theorem output_path_format :
    (∀ (cfg : RipConfig) (n : Int) (title : String),
      cfg.save_path ≠ "" →
      cfg.save_path.data.getLast? ≠ some '/' →
      sanitize cfg.artist ≠ "" →
      sanitize cfg.album ≠ "" →
      cfg.disc_num.data.getLast? ≠ some '/' →
      output_filename (outputDir cfg) cfg.format n title =
        cfg.save_path ++ "/" ++ sanitize cfg.artist ++ "/" ++ sanitize cfg.album ++
          (if cfg.disc_num = "" then "" else "/Disc " ++ cfg.disc_num) ++
          "/" ++ (⟨intPad2 n⟩ : String) ++ ". " ++ sanitize title ++ "." ++
          strLower cfg.format) ∧
    RipEvent.ranPipe ["cdparanoia", "-q", "-d", "/dev/sr0", "1", "-"]
      ["flac", "-s", "--best", "--verify",
        "-T", "ARTIST=Foo/Bar", "-T", "ALBUM=Baz", "-T", "TITLE=Title: One",
        "-T", "TRACKNUMBER=1", "-T", "DATE=", "-", "-o",
        "/music/FooBar/Baz/01. Title One.flac"] ∈
      start_rip ⟨"/dev/sr0", "FLAC", "/music", "Foo/Bar", "Baz", "", "", "",
        [⟨"1", "Title: One"⟩], false⟩ (fun _ => ⟨⟨0, ""⟩, ⟨0, ""⟩⟩) := by
  constructor
  · intro cfg n title hsp hspl hsa hsb hdn
    have hsaD := data_ne_nil_of_ne_empty hsa
    have hsbD := data_ne_nil_of_ne_empty hsb
    have hsaH : (sanitize cfg.artist).data.head? ≠ some '/' :=
      fun h => sanitize_no_slash _ (List.mem_of_mem_head? h)
    have hsbH : (sanitize cfg.album).data.head? ≠ some '/' :=
      fun h => sanitize_no_slash _ (List.mem_of_mem_head? h)
    have hsaL : (sanitize cfg.artist).data.getLast? ≠ some '/' :=
      fun h => sanitize_no_slash _ (mem_of_getLast?_some h)
    have hsbL : (sanitize cfg.album).data.getLast? ≠ some '/' :=
      fun h => sanitize_no_slash _ (mem_of_getLast?_some h)
    have e1 : osJoin cfg.save_path (sanitize cfg.artist) =
        cfg.save_path ++ "/" ++ sanitize cfg.artist :=
      osJoin_eq _ _ (data_ne_nil_of_ne_empty hsp) hspl hsaH
    have hb1D : (cfg.save_path ++ "/" ++ sanitize cfg.artist).data ≠ [] := by
      rw [data_append_sep]
      simp
    have hb1L : (cfg.save_path ++ "/" ++
        sanitize cfg.artist).data.getLast? ≠ some '/' := by
      rw [data_append_sep]
      have hsh : cfg.save_path.data ++ '/' :: (sanitize cfg.artist).data =
          (cfg.save_path.data ++ ['/']) ++ (sanitize cfg.artist).data := by simp
      rw [hsh, getLast?_append_right _ _ hsaD]
      exact hsaL
    have e2 : osJoin (cfg.save_path ++ "/" ++ sanitize cfg.artist)
        (sanitize cfg.album) =
        cfg.save_path ++ "/" ++ sanitize cfg.artist ++ "/" ++ sanitize cfg.album :=
      osJoin_eq _ _ hb1D hb1L hsbH
    have hb2D : (cfg.save_path ++ "/" ++ sanitize cfg.artist ++ "/" ++
        sanitize cfg.album).data ≠ [] := by
      rw [data_append_sep]
      simp
    have hb2L : (cfg.save_path ++ "/" ++ sanitize cfg.artist ++ "/" ++
        sanitize cfg.album).data.getLast? ≠ some '/' := by
      rw [data_append_sep]
      have hsh : (cfg.save_path ++ "/" ++ sanitize cfg.artist).data ++
          '/' :: (sanitize cfg.album).data =
          ((cfg.save_path ++ "/" ++ sanitize cfg.artist).data ++ ['/']) ++
            (sanitize cfg.album).data := by simp
      rw [hsh, getLast?_append_right _ _ hsbD]
      exact hsbL
    have hfH : ((⟨intPad2 n⟩ : String) ++ ". " ++ sanitize title ++ "." ++
        strLower cfg.format).data.head? ≠ some '/' := by
      have hd1 : ((⟨intPad2 n⟩ : String) ++ ". " ++ sanitize title ++ "." ++
          strLower cfg.format).data = intPad2 n ++ ((". " : String).data ++
          ((sanitize title).data ++ (("." : String).data ++
            (strLower cfg.format).data))) := by
        simp [String.data_append, List.append_assoc]
      rw [hd1, head?_append_left _ _ (intPad2_ne_nil n)]
      intro h
      exact intPad2_no_slash n (List.mem_of_mem_head? h)
    unfold output_filename
    by_cases hd : cfg.disc_num = ""
    · have hout : outputDir cfg =
          cfg.save_path ++ "/" ++ sanitize cfg.artist ++ "/" ++
            sanitize cfg.album := by
        simp only [outputDir, ne_eq, hd, not_true_eq_false, if_false]
        rw [e1, e2]
      rw [hout, osJoin_eq _ _ hb2D hb2L hfH, if_pos hd]
      apply string_data_injective
      have h0 : ("" : String).data = [] := rfl
      have hsl : ("/" : String).data = ['/'] := rfl
      simp [String.data_append, List.append_assoc, h0, hsl]
    · have hdD : cfg.disc_num.data ≠ [] := data_ne_nil_of_ne_empty hd
      have hdiscH : ("Disc " ++ cfg.disc_num).data.head? ≠ some '/' := by
        have hl : ("Disc " : String).data = 'D' :: ("isc " : String).data := rfl
        rw [String.data_append, hl]
        intro h
        rw [List.cons_append, List.head?_cons] at h
        exact absurd h (by decide)
      have hout : outputDir cfg =
          cfg.save_path ++ "/" ++ sanitize cfg.artist ++ "/" ++
            sanitize cfg.album ++ "/" ++ ("Disc " ++ cfg.disc_num) := by
        simp only [outputDir]
        rw [if_pos hd, e1, e2, osJoin_eq _ _ hb2D hb2L hdiscH]
      have houtD : (cfg.save_path ++ "/" ++ sanitize cfg.artist ++ "/" ++
          sanitize cfg.album ++ "/" ++ ("Disc " ++ cfg.disc_num)).data ≠ [] := by
        rw [data_append_sep]
        simp
      have houtL : (cfg.save_path ++ "/" ++ sanitize cfg.artist ++ "/" ++
          sanitize cfg.album ++ "/" ++
          ("Disc " ++ cfg.disc_num)).data.getLast? ≠ some '/' := by
        rw [data_append_sep]
        have hsh : (cfg.save_path ++ "/" ++ sanitize cfg.artist ++ "/" ++
            sanitize cfg.album).data ++ '/' :: ("Disc " ++ cfg.disc_num).data =
            ((cfg.save_path ++ "/" ++ sanitize cfg.artist ++ "/" ++
              sanitize cfg.album).data ++ '/' :: ("Disc " : String).data) ++
              cfg.disc_num.data := by
          simp [String.data_append, List.append_assoc]
        rw [hsh, getLast?_append_right _ _ hdD]
        exact hdn
      rw [hout, osJoin_eq _ _ houtD houtL hfH, if_neg hd]
      apply string_data_injective
      have hl2 : ("/Disc " : String).data = '/' :: ("Disc " : String).data := rfl
      have hsl : ("/" : String).data = ['/'] := rfl
      simp [String.data_append, List.append_assoc, hl2, hsl]
  · decide

/-- Closed instance of the general part of `output_path_format` at the
scenario job (artist `Foo/Bar`, album `Baz`, track 1 `Title: One`,
FLAC). -/
theorem output_path_format_witness :
    output_filename (outputDir ⟨"/dev/sr0", "FLAC", "/music", "Foo/Bar", "Baz",
        "", "", "", [⟨"1", "Title: One"⟩], false⟩) "FLAC" 1 "Title: One" =
      "/music" ++ "/" ++ sanitize "Foo/Bar" ++ "/" ++ sanitize "Baz" ++
        (if ("" : String) = "" then "" else "/Disc " ++ "") ++ "/" ++
        (⟨intPad2 1⟩ : String) ++ ". " ++ sanitize "Title: One" ++ "." ++
        strLower "FLAC" :=
  output_path_format.1 ⟨"/dev/sr0", "FLAC", "/music", "Foo/Bar", "Baz",
      "", "", "", [⟨"1", "Title: One"⟩], false⟩ 1 "Title: One"
    (by decide) (by decide) (by decide) (by decide) (by decide)

/-- Claim C10: in the FLAC argument list each of the optional
disc-number tag, total-discs tag and cover-art option is inserted as a
single combined element at position 3 (with all three present they end
up at indices 3, 4, 5 in reverse insertion order), whereas MP3 and OGG
append their optional disc values as separate flag-and-value elements
(`--tv` + `TPOS=n/m` for MP3, `-c` + `DISCNUMBER=n` / `-c` +
`TOTALDISCS=n` for OGG). -/
theorem encoder_cmd_options :
    (∀ (cfg : RipConfig) (tr : Track) (cover out : String),
      cfg.format = "FLAC" →
      cfg.disc_num ≠ "" → cfg.disc_total ≠ "" → cover ≠ "" →
      get_encoder_cmd cfg tr cover out =
        ["flac", "-s", "--best",
         "--picture=" ++ cover,
         "-T TOTALDISCS=" ++ cfg.disc_total,
         "-T DISCNUMBER=" ++ cfg.disc_num,
         "--verify",
         "-T", "ARTIST=" ++ cfg.artist, "-T", "ALBUM=" ++ cfg.album,
         "-T", "TITLE=" ++ tr.title, "-T", "TRACKNUMBER=" ++ tr.number,
         "-T", "DATE=" ++ cfg.year, "-", "-o", out]) ∧
    (∀ (cfg : RipConfig) (tr : Track) (cover out : String),
      cfg.format = "FLAC" →
      cfg.disc_num ≠ "" → cfg.disc_total = "" → cover = "" →
      (get_encoder_cmd cfg tr cover out)[3]? =
        some ("-T DISCNUMBER=" ++ cfg.disc_num)) ∧
    (∀ (cfg : RipConfig) (tr : Track) (cover out : String),
      cfg.format = "FLAC" →
      cfg.disc_num = "" → cfg.disc_total ≠ "" → cover = "" →
      (get_encoder_cmd cfg tr cover out)[3]? =
        some ("-T TOTALDISCS=" ++ cfg.disc_total)) ∧
    (∀ (cfg : RipConfig) (tr : Track) (cover out : String),
      cfg.format = "FLAC" →
      cfg.disc_num = "" → cfg.disc_total = "" → cover ≠ "" →
      (get_encoder_cmd cfg tr cover out)[3]? = some ("--picture=" ++ cover)) ∧
    (∀ (cfg : RipConfig) (tr : Track) (cover out : String),
      cfg.format = "MP3" →
      cfg.disc_num ≠ "" → cfg.disc_total ≠ "" →
      get_encoder_cmd cfg tr cover out =
        ["lame", "-S", "-b", "320", "--add-id3v2",
         "--tt", tr.title, "--ta", cfg.artist, "--tl", cfg.album,
         "--ty", cfg.year, "--tn", tr.number,
         "--tv", "TPOS=" ++ cfg.disc_num ++ "/" ++ cfg.disc_total,
         "-", out]) ∧
    (∀ (cfg : RipConfig) (tr : Track) (cover out : String),
      cfg.format = "OGG" →
      cfg.disc_num ≠ "" → cfg.disc_total ≠ "" →
      get_encoder_cmd cfg tr cover out =
        ["oggenc", "-Q", "-q", "10",
         "-a", cfg.artist, "-l", cfg.album, "-t", tr.title,
         "-N", tr.number, "-d", cfg.year,
         "-c", "DISCNUMBER=" ++ cfg.disc_num,
         "-c", "TOTALDISCS=" ++ cfg.disc_total,
         "-o", out, "-"]) := by
  refine ⟨?_, ?_, ?_, ?_, ?_, ?_⟩
  · intro cfg tr cover out hf h1 h2 h3
    simp [get_encoder_cmd, hf, h1, h2, h3]
  · intro cfg tr cover out hf h1 h2 h3
    simp [get_encoder_cmd, hf, h1, h2, h3]
  · intro cfg tr cover out hf h1 h2 h3
    simp [get_encoder_cmd, hf, h1, h2, h3]
  · intro cfg tr cover out hf h1 h2 h3
    simp [get_encoder_cmd, hf, h1, h2, h3]
  · intro cfg tr cover out hf h1 h2
    simp [get_encoder_cmd, hf, h1, h2]
  · intro cfg tr cover out hf h1 h2
    simp [get_encoder_cmd, hf, h1, h2]

/-- Closed instances of `encoder_cmd_options` for a concrete tagged job
in each format. -/
theorem encoder_cmd_options_witness :
    get_encoder_cmd ⟨"d", "FLAC", "/m", "A", "B", "1999", "1", "2", [], true⟩
        ⟨"4", "T"⟩ "/m/cover.jpg" "out.flac" =
      ["flac", "-s", "--best", "--picture=/m/cover.jpg", "-T TOTALDISCS=2",
       "-T DISCNUMBER=1", "--verify", "-T", "ARTIST=A", "-T", "ALBUM=B",
       "-T", "TITLE=T", "-T", "TRACKNUMBER=4", "-T", "DATE=1999",
       "-", "-o", "out.flac"] ∧
    (get_encoder_cmd ⟨"d", "FLAC", "/m", "A", "B", "1999", "1", "", [], false⟩
        ⟨"4", "T"⟩ "" "out.flac")[3]? = some "-T DISCNUMBER=1" ∧
    get_encoder_cmd ⟨"d", "MP3", "/m", "A", "B", "1999", "1", "2", [], false⟩
        ⟨"4", "T"⟩ "" "out.mp3" =
      ["lame", "-S", "-b", "320", "--add-id3v2", "--tt", "T", "--ta", "A",
       "--tl", "B", "--ty", "1999", "--tn", "4", "--tv", "TPOS=1/2",
       "-", "out.mp3"] ∧
    get_encoder_cmd ⟨"d", "OGG", "/m", "A", "B", "1999", "1", "2", [], false⟩
        ⟨"4", "T"⟩ "" "out.ogg" =
      ["oggenc", "-Q", "-q", "10", "-a", "A", "-l", "B", "-t", "T",
       "-N", "4", "-d", "1999", "-c", "DISCNUMBER=1", "-c", "TOTALDISCS=2",
       "-o", "out.ogg", "-"] :=
  ⟨encoder_cmd_options.1 _ _ _ _ rfl (by decide) (by decide) (by decide),
   encoder_cmd_options.2.1 _ _ _ _ rfl (by decide) rfl rfl,
   encoder_cmd_options.2.2.2.2.1 _ _ _ _ rfl (by decide) (by decide),
   encoder_cmd_options.2.2.2.2.2 _ _ _ _ rfl (by decide) (by decide)⟩
